import Mathlib

/-!
Verification of the meme-coin-bot discovery-and-scoring pipeline.

Shallow embedding of the Python sources under `src/`:
* `src/utils/retry.py` — `CircuitBreaker.execute`, `retry_with_backoff`
* `src/utils/cache.py` — in-memory `Cache.get` / `Cache.set` / `Cache.delete`
* `src/signals/generator.py` — `SignalGenerator.can_generate_signal` / `record_signal`
* `src/filters/safety.py` — `SafetyFilter.apply`
* `src/scoring/scorer.py` — `TokenScorer._calculate_token_scores`
* `src/scoring/service.py` — `ScoringService.score_token` / `score_tokens_in_parallel`
* `src/scanners/service.py` — `ScannerService.scan_blockchain` / `scan_all_blockchains`
* `src/scoring/models.py` — `ScoringThresholds`

Python floats are modelled as `ℚ`; `time.time()` / `datetime.utcnow()` values are
passed explicitly as a `ℚ` timestamp (seconds).  Python exceptions are modelled by
explicit result sums.  Dictionaries are modelled as association lists keyed by
`String`, with `dictSet` doing Python's `d[k] = v` (last write wins for lookup).
-/

namespace MemeBot

/-- Python dict lookup `d.get(k)` on an association list: the binding installed by
the most recent `dictSet` wins. -/
def dictGet {α : Type} (d : List (String × α)) (k : String) : Option α :=
  match d with
  | [] => none
  | (k', v) :: rest => if k' = k then some v else dictGet rest k

/-- Python dict assignment `d[k] = v`: the new binding shadows any older one. -/
def dictSet {α : Type} (d : List (String × α)) (k : String) (v : α) : List (String × α) :=
  (k, v) :: d

/-- Python dict deletion `del d[k]`. -/
def dictDel {α : Type} (d : List (String × α)) (k : String) : List (String × α) :=
  d.filter (fun p => p.1 ≠ k)

/-! ### Circuit breaker — `src/utils/retry.py`, class `CircuitBreaker` -/

/-- State of a `CircuitBreaker` object (`src/utils/retry.py` lines 18-36).
`state` is one of the strings `"closed"`, `"open"`, `"half-open"` exactly as in
the Python source. -/
structure CircuitBreaker where
  name : String
  failure_count : Nat
  failure_threshold : Nat
  reset_timeout : ℚ
  state : String
  last_failure_time : ℚ
  deriving Repr, DecidableEq

/-- `CircuitBreaker.__init__`: `failure_count = 0`, `state = "closed"`,
`last_failure_time = 0`. -/
def CircuitBreaker.init (name : String) (failure_threshold : Nat) (reset_timeout : ℚ) :
    CircuitBreaker :=
  { name := name
    failure_count := 0
    failure_threshold := failure_threshold
    reset_timeout := reset_timeout
    state := "closed"
    last_failure_time := 0 }

/-- Outcome of `CircuitBreaker.execute`.  `circuitOpen` is the
`raise Exception(f"Circuit breaker '{self.name}' is open")` at line 61 of
`retry.py` (the rejection raised without invoking the wrapped function);
`err e` is the re-raise of the wrapped function's own exception at line 89. -/
inductive ExecResult (ε α : Type) where
  | ok : α → ExecResult ε α
  | circuitOpen : ExecResult ε α
  | err : ε → ExecResult ε α
  deriving Repr, DecidableEq

/-- Body of `CircuitBreaker.execute` after the open-state gate: the
`try`/`except` block of lines 63-89.  `func` is the (already determined)
outcome of invoking the wrapped function once. -/
def CircuitBreaker.run {ε α : Type} (cb : CircuitBreaker) (now : ℚ) (func : Except ε α) :
    ExecResult ε α × CircuitBreaker :=
  match func with
  | .ok r =>
      if cb.state = "half-open" then
        (.ok r, { cb with failure_count := 0, state := "closed" })
      else
        (.ok r, cb)
  | .error e =>
      let cb' : CircuitBreaker :=
        { cb with failure_count := cb.failure_count + 1, last_failure_time := now }
      if cb'.failure_count ≥ cb'.failure_threshold then
        (.err e, { cb' with state := "open" })
      else
        (.err e, cb')

/-- `CircuitBreaker.execute` (`src/utils/retry.py` lines 38-89).  Returns the
result, the updated breaker state, and whether the wrapped function was
actually invoked. -/
def CircuitBreaker.execute {ε α : Type} (cb : CircuitBreaker) (now : ℚ)
    (func : Except ε α) : ExecResult ε α × CircuitBreaker × Bool :=
  if cb.state = "open" then
    if now - cb.last_failure_time > cb.reset_timeout then
      let (r, cb') := CircuitBreaker.run { cb with state := "half-open" } now func
      (r, cb', true)
    else
      (.circuitOpen, cb, false)
  else
    let (r, cb') := CircuitBreaker.run cb now func
    (r, cb', true)

/-- Fold a sequence of call outcomes through `CircuitBreaker.execute`, all
observed at the same wall-clock time `now` (calls in quick succession). -/
def CircuitBreaker.steps {ε α : Type} (cb : CircuitBreaker) (now : ℚ) :
    List (Except ε α) → CircuitBreaker
  | [] => cb
  | f :: fs => CircuitBreaker.steps (CircuitBreaker.execute cb now f).2.1 now fs

/-- Number of failing outcomes in a list of call outcomes. -/
def countFailures {ε α : Type} : List (Except ε α) → Nat
  | [] => 0
  | .ok _ :: fs => countFailures fs
  | .error _ :: fs => countFailures fs + 1

/-- The breaker state after one `execute` whose wrapped call fails with `e`
at time `t`. -/
def failStep {ε : Type} (cb : CircuitBreaker) (t : ℚ) (e : ε) : CircuitBreaker :=
  (CircuitBreaker.execute cb t (Except.error e : Except ε Unit)).2.1

/-! ### Retry with exponential backoff — `src/utils/retry.py`, `retry_with_backoff` -/

/-- Result of a `retry_with_backoff`-wrapped call: final outcome, number of
times the wrapped function was invoked, and the list of sleeps performed
between attempts (in order). -/
structure RetryTrace (ε α : Type) where
  result : Except ε α
  attempts : Nat
  delays : List ℚ

/-- Loop body of `retry_with_backoff`'s wrapper (`src/utils/retry.py` lines
105-126 / 129-150): `for retry in range(max_retries + 1)`.  `outcomes i` is the
outcome of the `i`-th invocation of the wrapped function (0-based).
`remaining` counts the loop iterations still to come after the current one, so
`remaining = 0` is exactly the source's `retry == max_retries` test. -/
def retryGo {ε α : Type} (outcomes : Nat → Except ε α) (backoff_factor : ℚ) :
    Nat → Nat → ℚ → RetryTrace ε α
  | remaining, attempt, delay =>
    match outcomes attempt with
    | .ok v => ⟨.ok v, attempt + 1, []⟩
    | .error e =>
        match remaining with
        | 0 => ⟨.error e, attempt + 1, []⟩
        | r + 1 =>
            let t := retryGo outcomes backoff_factor r (attempt + 1) (delay * backoff_factor)
            ⟨t.result, t.attempts, delay :: t.delays⟩

/-- `retry_with_backoff(max_retries, initial_delay, backoff_factor)` applied to
a wrapped function whose `i`-th invocation yields `outcomes i`
(`src/utils/retry.py` lines 91-157; async and sync wrappers are the same
algorithm). -/
def retry_with_backoff {ε α : Type} (max_retries : Nat) (initial_delay backoff_factor : ℚ)
    (outcomes : Nat → Except ε α) : RetryTrace ε α :=
  retryGo outcomes backoff_factor max_retries 0 initial_delay

/-! ### Signal throttling — `src/signals/generator.py`, class `SignalGenerator` -/

/-- `SIGNAL_COOLDOWN_MINUTES` default (`generator.py` line 18). -/
def SIGNAL_COOLDOWN_MINUTES : ℚ := 30

/-- `MAX_SIGNALS_PER_HOUR` default (`generator.py` line 19). -/
def MAX_SIGNALS_PER_HOUR : Nat := 5

/-- The cooldown period `timedelta(minutes=SIGNAL_COOLDOWN_MINUTES)` in seconds. -/
def cooldown_period : ℚ := SIGNAL_COOLDOWN_MINUTES * 60

/-- `datetime.min` (0001-01-01T00:00:00) as seconds relative to the Unix epoch. -/
def datetimeMin : ℚ := -62135596800

/-- State of a `SignalGenerator` (`generator.py` lines 24-28): the
`recent_signals` dict maps a token address to the timestamp of its last
signal; `last_signal_time` starts at `datetime.min`. -/
structure SignalGenerator where
  recent_signals : List (String × ℚ)
  signal_count_last_hour : Nat
  last_signal_time : ℚ

/-- `SignalGenerator.__init__`. -/
def SignalGenerator.init : SignalGenerator :=
  { recent_signals := []
    signal_count_last_hour := 0
    last_signal_time := datetimeMin }

/-- `SignalGenerator.can_generate_signal` (`generator.py` lines 30-58) at
wall-clock time `now` (`datetime.utcnow()`).  Returns the boolean answer and
the updated state (the hourly counter is reset when the last signal is more
than an hour old). -/
def SignalGenerator.can_generate_signal (g : SignalGenerator) (now : ℚ)
    (token_address : String) : Bool × SignalGenerator :=
  let inCooldown :=
    match dictGet g.recent_signals token_address with
    | some last_signal_time => decide (now - last_signal_time < cooldown_period)
    | none => false
  if inCooldown then
    (false, g)
  else
    let one_hour_ago := now - 3600
    if g.last_signal_time > one_hour_ago then
      if g.signal_count_last_hour ≥ MAX_SIGNALS_PER_HOUR then
        (false, g)
      else
        (true, g)
    else
      (true, { g with signal_count_last_hour := 0 })

/-- `SignalGenerator._cleanup_old_signals` (`generator.py` lines 74-83):
drops entries whose age has reached the cooldown period. -/
def SignalGenerator.cleanup_old_signals (g : SignalGenerator) (now : ℚ) : SignalGenerator :=
  { g with recent_signals :=
      g.recent_signals.filter (fun p => now - p.2 < cooldown_period) }

/-- `SignalGenerator.record_signal` (`generator.py` lines 60-72). -/
def SignalGenerator.record_signal (g : SignalGenerator) (now : ℚ)
    (token_address : String) : SignalGenerator :=
  SignalGenerator.cleanup_old_signals
    { g with recent_signals := dictSet g.recent_signals token_address now
             last_signal_time := now
             signal_count_last_hour := g.signal_count_last_hour + 1 }
    now

/-! ### TTL cache — `src/utils/cache.py`, class `Cache` (in-memory fallback path,
`use_redis = False`).  `_memory_cache` maps a key to the entry dict
`{"value": v, "expires_at": t}`. -/

/-- The in-memory store `_memory_cache`: key ↦ (value, expires_at). -/
def MemoryCache (α : Type) : Type := List (String × α × ℚ)

/-- Lookup in `_memory_cache` (most recent binding wins, as for a dict). -/
def MemoryCache.find {α : Type} (c : MemoryCache α) (k : String) : Option (α × ℚ) :=
  match c with
  | [] => none
  | (k', e) :: rest => if k' = k then some e else MemoryCache.find rest k

/-- `Cache.get` (`cache.py` lines 57-77, in-memory path): an entry whose
`expires_at` is not in the future is removed and treated as a miss (`None`). -/
def Cache.get {α : Type} (c : MemoryCache α) (now : ℚ) (key : String) :
    Option α × MemoryCache α :=
  match MemoryCache.find c key with
  | some (v, expires_at) =>
      if expires_at > now then (some v, c)
      else (none, c.filter (fun p => p.1 ≠ key))
  | none => (none, c)

/-- `Cache.set` (`cache.py` lines 79-95, in-memory path): stores
`{"value": value, "expires_at": time.time() + ttl_seconds}` and returns `True`. -/
def Cache.set {α : Type} (c : MemoryCache α) (now : ℚ) (key : String) (value : α)
    (ttl_seconds : ℚ) : Bool × MemoryCache α :=
  (true, (key, value, now + ttl_seconds) :: c)

/-- `Cache.delete` (`cache.py` lines 97-109, in-memory path). -/
def Cache.delete {α : Type} (c : MemoryCache α) (key : String) : Bool × MemoryCache α :=
  match MemoryCache.find c key with
  | some _ => (true, c.filter (fun p => p.1 ≠ key))
  | none => (false, c)

/-! ### Safety filter — `src/filters/safety.py`, class `SafetyFilter` -/

/-- The `"safety"` sub-dictionary of a token dict; every field the Python code
reads through `.get` with a default is optional. -/
structure SafetyInfo where
  is_safe : Option Bool
  risk_level : Option String
  warnings : Option (List String)

/-- A token as consumed by `SafetyFilter.apply`: only the `"safety"` entry is
read (absent entry ↦ `none`, the code substitutes `{}`). -/
structure FilterToken where
  safety : Option SafetyInfo

/-- The `{}` default used by `token.get("safety", {})`. -/
def SafetyInfo.empty : SafetyInfo := ⟨none, none, none⟩

/-- `SafetyFilter.apply` (`safety.py` lines 29-52).  Returns the pass/fail
boolean together with the rejection reason written to
`last_rejection_reason` (if any). -/
def SafetyFilter.apply (token : FilterToken) : Bool × Option String :=
  let safety_info := token.safety.getD SafetyInfo.empty
  if ¬ (safety_info.is_safe.getD true) then
    (false, some ("Token failed safety check: " ++
      String.intercalate ", " (safety_info.warnings.getD ["Unknown reason"])))
  else
    let risk_level := safety_info.risk_level.getD "unknown"
    if risk_level = "high" then
      (false, some ("Token has high risk level: " ++
        String.intercalate ", " (safety_info.warnings.getD ["Unknown reason"])))
    else
      (true, none)

/-! ### Token scorer — `src/scoring/scorer.py`, `TokenScorer._calculate_token_scores`,
with the constants it imports from `src/config/config.py` lines 38-41. -/

/-- `MIN_LIQUIDITY_USD` (`config.py` line 38). -/
def MIN_LIQUIDITY_USD : ℚ := 10000

/-- `MIN_HOLDERS` (`config.py` line 39). -/
def MIN_HOLDERS : ℚ := 50

/-- `MIN_VOLUME_24H` (`config.py` line 40). -/
def MIN_VOLUME_24H : ℚ := 5000

/-- `BUY_SELL_RATIO_THRESHOLD` (`config.py` line 41). -/
def BUY_SELL_RATIO_THRESHOLD : ℚ := 3/2

/-- The inputs `_calculate_token_scores` reads: the `Token` row fields and the
three social aggregates it queries from the session (mention counts over the
last 24h and the average sentiment, with `None` coalesced to `0.0` by
`... or 0.0`). -/
structure ScorerInput where
  liquidity_usd : ℚ
  volume_24h_usd : ℚ
  contract_audit_score : ℚ
  is_honeypot : Bool
  contract_verified : Bool
  buy_sell_ratio : ℚ
  holders_count : ℚ
  recent_mentions_count : ℚ
  influencer_mentions_count : ℚ
  avg_sentiment : ℚ

/-- The scores dict produced by `_calculate_token_scores`. -/
structure TokenScores where
  liquidity_score : ℚ
  volume_score : ℚ
  social_score : ℚ
  safety_score : ℚ
  total_score : ℚ

/-- Liquidity component of `_calculate_token_scores` (`scorer.py` lines 94-102). -/
def TokenScorer.liquidity_score (token : ScorerInput) : ℚ :=
  if token.liquidity_usd ≥ MIN_LIQUIDITY_USD then
    let liquidity_factor :=
      min 1 ((token.liquidity_usd - MIN_LIQUIDITY_USD) / (9 * MIN_LIQUIDITY_USD))
    15 + 10 * liquidity_factor
  else
    let liquidity_factor := token.liquidity_usd / MIN_LIQUIDITY_USD
    15 * liquidity_factor

/-- Volume component of `_calculate_token_scores` (`scorer.py` lines 104-112). -/
def TokenScorer.volume_score (token : ScorerInput) : ℚ :=
  if token.volume_24h_usd ≥ MIN_VOLUME_24H then
    let volume_factor :=
      min 1 ((token.volume_24h_usd - MIN_VOLUME_24H) / (9 * MIN_VOLUME_24H))
    15 + 10 * volume_factor
  else
    let volume_factor := token.volume_24h_usd / MIN_VOLUME_24H
    15 * volume_factor

/-- Social component of `_calculate_token_scores` (`scorer.py` lines 114-139). -/
def TokenScorer.social_score (token : ScorerInput) : ℚ :=
  let mention_score := min 15 (token.recent_mentions_count * (3/2))
  let influencer_score := min 5 (token.influencer_mentions_count * (5/2))
  let sentiment_score := 5 * (token.avg_sentiment + 1) / 2
  mention_score + influencer_score + sentiment_score

/-- Safety base score from the contract audit (`scorer.py` line 143). -/
def TokenScorer.safety_base (token : ScorerInput) : ℚ :=
  token.contract_audit_score / 4

/-- Safety score after the honeypot penalty (`scorer.py` lines 145-147). -/
def TokenScorer.safety_after_honeypot (token : ScorerInput) : ℚ :=
  if token.is_honeypot then 0 else TokenScorer.safety_base token

/-- Safety score after the verified-contract bonus (`scorer.py` lines 149-151). -/
def TokenScorer.safety_after_verified (token : ScorerInput) : ℚ :=
  if token.contract_verified then min 25 (TokenScorer.safety_after_honeypot token + 5)
  else TokenScorer.safety_after_honeypot token

/-- Safety score after the buy/sell-ratio bonus (`scorer.py` lines 153-155). -/
def TokenScorer.safety_after_ratio (token : ScorerInput) : ℚ :=
  if token.buy_sell_ratio ≥ BUY_SELL_RATIO_THRESHOLD then
    min 25 (TokenScorer.safety_after_verified token + 5)
  else TokenScorer.safety_after_verified token

/-- Safety component of `_calculate_token_scores` (`scorer.py` lines 141-162):
the audit base, then the honeypot penalty, the verified-contract bonus, the
buy/sell-ratio bonus and the holder-count bonus, applied in order. -/
def TokenScorer.safety_score (token : ScorerInput) : ℚ :=
  if token.holders_count ≥ MIN_HOLDERS then
    let holder_bonus := min 5 ((token.holders_count - MIN_HOLDERS) / 200)
    min 25 (TokenScorer.safety_after_ratio token + holder_bonus)
  else TokenScorer.safety_after_ratio token

/-- `TokenScorer._calculate_token_scores` (`scorer.py` lines 74-172): the four
component scores and `total_score` = their sum (lines 164-170). -/
def TokenScorer.calculate_token_scores (token : ScorerInput) : TokenScores :=
  { liquidity_score := TokenScorer.liquidity_score token
    volume_score := TokenScorer.volume_score token
    social_score := TokenScorer.social_score token
    safety_score := TokenScorer.safety_score token
    total_score := TokenScorer.liquidity_score token + TokenScorer.volume_score token +
      TokenScorer.social_score token + TokenScorer.safety_score token }

/-! ### Scanner coordinator — `src/scanners/service.py`, `ScannerService` -/

/-- A token dict as produced by a scanner (`scanners/ethereum.py` lines
279-291, `scanners/solana.py` lines 226-236): identity-relevant fields plus
the rest of the payload, which the merge step never inspects. -/
structure ScanToken where
  address : String
  blockchain : String
  symbol : String
  deriving Repr, DecidableEq

/-- Lower-casing of a string, character by character (case normalization). -/
def caseFold (s : String) : String := String.mk (s.data.map Char.toLower)

/-- The case-normalized identity key `(chain_id, address)` of a candidate. -/
def identityKey (t : ScanToken) : String × String :=
  (caseFold t.blockchain, caseFold t.address)

/-- `ScannerService.scan_blockchain` (`service.py` lines 115-138): the named
scanner's `scan_for_new_tokens()` outcome, with any exception caught and
turned into `[]`. -/
def ScannerService.scan_blockchain (r : Except String (List ScanToken)) : List ScanToken :=
  match r with
  | .ok tokens => tokens
  | .error _ => []

/-- `ScannerService.scan_all_blockchains` (`service.py` lines 90-113):
`all_tokens.extend(result)` over the per-scanner results, in registration
order.  `scanners` pairs each blockchain name with the outcome of its
`scan_for_new_tokens()` call. -/
def ScannerService.scan_all_blockchains
    (scanners : List (String × Except String (List ScanToken))) : List ScanToken :=
  if scanners.isEmpty then []
  else (scanners.map (fun p => ScannerService.scan_blockchain p.2)).foldl (· ++ ·) []

/-! ### Scoring service — `src/scoring/service.py`, `ScoringService`, and the
pipeline tail in `src/signals/generator.py`, `SignalGenerator.generate_signals`. -/

/-- A token dict as consumed by the scoring/signal pipeline: only the
`"address"` key is inspected by the code under proof (`token.get("address")`,
with Python falsiness on `None` and `""`). -/
structure TokenDict where
  address : Option String

/-- A `TokenScore` value (`src/scoring/models.py` lines 65-91). -/
structure TokenScoreModel where
  token_address : String
  total_score : ℚ
  volume_score : ℚ
  liquidity_score : ℚ
  holder_score : ℚ
  momentum_score : ℚ
  safety_score : ℚ

/-- `TokenScore.to_dict` (`models.py` lines 77-91). -/
def TokenScoreModel.to_dict (s : TokenScoreModel) : List (String × ℚ) :=
  [("total", s.total_score), ("volume", s.volume_score),
   ("liquidity", s.liquidity_score), ("holder", s.holder_score),
   ("momentum", s.momentum_score), ("safety", s.safety_score)]

/-- Attribute lookup `token_scorer.score_token` on the `TokenScorer` class of
`src/scoring/scorer.py`: the class body (lines 22-250) defines only
`__init__`, `score_tokens`, `_calculate_token_scores` and `_generate_signal`,
so there is no `score_token` attribute — the lookup raises `AttributeError`,
modelled here as `none`. -/
def TokenScorer.attr_score_token : Option (TokenDict → TokenScoreModel) := none

/-- `ScoringService.score_token` (`service.py` lines 110-131): calls
`token_scorer.score_token(token)` inside `try`, and the `except` handler
returns `{}` on any exception — including the `AttributeError` raised by
the attribute lookup. -/
def ScoringService.score_token (token : TokenDict) :
    List (String × List (String × ℚ)) :=
  match TokenScorer.attr_score_token with
  | some f =>
      let score := f token
      [(score.token_address, score.to_dict)]
  | none => []

/-- `ScoringService.score_tokens_in_parallel` (`service.py` lines 133-167):
`all_scores.update(result)` over the per-token results. -/
def ScoringService.score_tokens_in_parallel (tokens : List TokenDict) :
    List (String × List (String × ℚ)) :=
  if tokens.isEmpty then []
  else (tokens.map ScoringService.score_token).foldl
    (fun all_scores result => result.foldl (fun d p => dictSet d p.1 p.2) all_scores) []

/-- `MINIMUM_TOTAL_SCORE` default (`generator.py` line 17). -/
def MINIMUM_TOTAL_SCORE : ℚ := 70

/-- `SignalGenerator._determine_signal_type` (`generator.py` lines 130-148). -/
def SignalGenerator.determine_signal_type (scores : List (String × ℚ)) : String :=
  let total_score := (dictGet scores "total").getD 0
  if total_score ≥ 90 then "buy"
  else if total_score ≥ 70 then "watch"
  else "ignore"

/-- The data from which `Signal.from_token` builds a signal
(`src/signals/models.py` lines 36-67): the token dict, its scores dict and
the signal type. -/
structure GeneratedSignal where
  token : TokenDict
  scores : List (String × ℚ)
  signal_type : String

/-- `SignalGenerator.generate_signals` (`generator.py` lines 85-128) at
wall-clock time `now`: walks the token list, skips tokens with a falsy
address, skips scores below `MINIMUM_TOTAL_SCORE`, consults
`can_generate_signal` and records emitted signals. -/
def SignalGenerator.generate_signals (g : SignalGenerator) (now : ℚ)
    (tokens : List TokenDict) (scores : List (String × List (String × ℚ))) :
    List GeneratedSignal × SignalGenerator :=
  match tokens with
  | [] => ([], g)
  | token :: rest =>
      match token.address with
      | none => SignalGenerator.generate_signals g now rest scores
      | some token_address =>
          if token_address = "" then
            SignalGenerator.generate_signals g now rest scores
          else
            let token_scores := (dictGet scores token_address).getD []
            let total_score := (dictGet token_scores "total").getD 0
            if total_score < MINIMUM_TOTAL_SCORE then
              SignalGenerator.generate_signals g now rest scores
            else
              let (can, g1) := g.can_generate_signal now token_address
              if ¬ can then
                SignalGenerator.generate_signals g1 now rest scores
              else
                let signal_type := SignalGenerator.determine_signal_type token_scores
                let g2 := g1.record_signal now token_address
                let (sigs, g3) := SignalGenerator.generate_signals g2 now rest scores
                (⟨token, token_scores, signal_type⟩ :: sigs, g3)

/-! ### Momentum normalization — modelled from the spec -/

/-- `ScoringThresholds` defaults (`src/scoring/models.py` lines 37-63); only
the buy/sell-ratio pair is relevant here. -/
structure ScoringThresholds where
  min_buy_sell_ratio : ℚ
  max_buy_sell_ratio : ℚ

/-- `ScoringThresholds()` with its dataclass defaults (`models.py` lines 54-55). -/
def ScoringThresholds.default : ScoringThresholds := ⟨1/2, 3⟩

/-- Modelled from the spec: the momentum normalization of
`TokenScorer.score_token` is missing from `src/` (its caller
`ScoringService.score_token` and the `ScoringThresholds` declaration exist,
but no implementation does).  Spec §4.6: ratio ≤ `min_ratio` → 0, ratio ≥
`max_ratio` → 1, else linear interpolation between the two. -/
def normalize_momentum (th : ScoringThresholds) (ratio : ℚ) : ℚ :=
  if ratio ≤ th.min_buy_sell_ratio then 0
  else if ratio ≥ th.max_buy_sell_ratio then 1
  else (ratio - th.min_buy_sell_ratio) /
    (th.max_buy_sell_ratio - th.min_buy_sell_ratio)

/-! ## Theorems -/

/-- C10: `SafetyFilter.apply` passes every token that has no `"safety"` entry,
or whose safety info omits both `is_safe` and `risk_level`: a missing
`is_safe` defaults to `True` and a missing `risk_level` defaults to
`"unknown"`, so entirely absent safety data passes the filter. -/
theorem C10_missing_safety_data_passes (token : FilterToken)
    (h : token.safety = none ∨
      ∃ si, token.safety = some si ∧ si.is_safe = none ∧ si.risk_level = none) :
    (SafetyFilter.apply token).1 = true := by
  rcases h with h | ⟨si, hsi, h1, h2⟩
  · simp [SafetyFilter.apply, h, SafetyInfo.empty]
  · simp [SafetyFilter.apply, hsi, h1, h2]

/-- Witness for C10 at the token with no safety entry. -/
theorem C10_missing_safety_data_passes_witness :
    (SafetyFilter.apply ⟨none⟩).1 = true :=
  C10_missing_safety_data_passes ⟨none⟩ (Or.inl rfl)

/-- C3: the momentum component is normalized by linear min-max over the
buy/sell ratio — ratio ≤ `min_buy_sell_ratio` normalizes to 0, ratio ≥
`max_buy_sell_ratio` to 1, anything in between linearly — and at ratio 1.0
with the default thresholds (0.5, 3.0) the normalized momentum is 1/5 = 0.2,
not 0.5.  (The normalizer itself is modelled from the spec, as
`TokenScorer.score_token` is absent from `src/`.) -/
theorem C3_momentum_linear_minmax (th : ScoringThresholds) (ratio : ℚ)
    (hlt : th.min_buy_sell_ratio < th.max_buy_sell_ratio) :
    (ratio ≤ th.min_buy_sell_ratio → normalize_momentum th ratio = 0) ∧
    (th.max_buy_sell_ratio ≤ ratio → normalize_momentum th ratio = 1) ∧
    (th.min_buy_sell_ratio < ratio → ratio < th.max_buy_sell_ratio →
      normalize_momentum th ratio =
        (ratio - th.min_buy_sell_ratio) /
          (th.max_buy_sell_ratio - th.min_buy_sell_ratio)) ∧
    normalize_momentum ScoringThresholds.default 1 = 1/5 := by
  refine ⟨fun h1 => ?_, fun h2 => ?_, fun h3 h4 => ?_, ?_⟩
  · simp [normalize_momentum, h1]
  · have h1 : ¬ ratio ≤ th.min_buy_sell_ratio := by linarith
    simp [normalize_momentum, h1, le_of_lt, h2]
  · have h1 : ¬ ratio ≤ th.min_buy_sell_ratio := by linarith
    have h2 : ¬ ratio ≥ th.max_buy_sell_ratio := by linarith
    simp [normalize_momentum, h1, h2]
  · norm_num [normalize_momentum, ScoringThresholds.default]

/-- Witness for C3 at the default thresholds and ratio 1. -/
theorem C3_momentum_linear_minmax_witness :
    normalize_momentum ScoringThresholds.default 1 = 1/5 :=
  (C3_momentum_linear_minmax ScoringThresholds.default 1 (by norm_num [ScoringThresholds.default])).2.2.2

/-- A key filtered out of the memory cache is no longer found. -/
theorem MemoryCache.find_filter_self {α : Type} (c : MemoryCache α) (k : String) :
    MemoryCache.find (List.filter (fun p => p.1 ≠ k) c) k = none := by
  induction c with
  | nil => rfl
  | cons hd tl ih =>
      by_cases h : hd.1 = k
      · simpa [List.filter, h] using ih
      · simpa [List.filter, h, MemoryCache.find] using ih

/-- C7: for every key, value and positive TTL, `set` then `get` before the
TTL elapses returns the value; a `get` after `expires_at` behaves as a miss,
removes the expired entry, and a subsequent `set` for the key succeeds
(returns `True` and installs a fresh entry). -/
theorem C7_cache_ttl {α : Type} (c : MemoryCache α) (now : ℚ) (k : String) (v : α)
    (ttl : ℚ) (httl : 0 < ttl) :
    (∀ t1, t1 < now + ttl → (Cache.get (Cache.set c now k v ttl).2 t1 k).1 = some v) ∧
    (∀ t2, now + ttl ≤ t2 →
      (Cache.get (Cache.set c now k v ttl).2 t2 k).1 = none ∧
      MemoryCache.find (Cache.get (Cache.set c now k v ttl).2 t2 k).2 k = none ∧
      ∀ (t3 : ℚ) (v' : α) (ttl' : ℚ),
        (Cache.set (Cache.get (Cache.set c now k v ttl).2 t2 k).2 t3 k v' ttl').1 = true ∧
        MemoryCache.find
          (Cache.set (Cache.get (Cache.set c now k v ttl).2 t2 k).2 t3 k v' ttl').2 k
          = some (v', t3 + ttl')) := by
  have hfind : MemoryCache.find (Cache.set c now k v ttl).2 k = some (v, now + ttl) := by
    simp [Cache.set, MemoryCache.find]
  constructor
  · intro t1 h1
    simp [Cache.get, hfind, h1]
  · intro t2 h2
    have hnot : ¬ now + ttl > t2 := by linarith
    refine ⟨?_, ?_, ?_⟩
    · simp [Cache.get, hfind, hnot]
    · simp only [Cache.get, hfind, if_neg hnot]
      exact MemoryCache.find_filter_self _ k
    · intro t3 v' ttl'
      constructor
      · rfl
      · simp [Cache.set, MemoryCache.find]

/-- Folding `++` from the empty accumulator concatenates the chunks. -/
theorem foldl_append_eq_flatten {α : Type} (ls : List (List α)) (acc : List α) :
    List.foldl (· ++ ·) acc ls = acc ++ ls.flatten := by
  induction ls generalizing acc with
  | nil => simp
  | cons hd tl ih => simp [List.foldl, ih, List.flatten]

/-- C2: `ScoringService.score_token` always returns the empty dict — the
attribute lookup `token_scorer.score_token` raises `AttributeError` because
`TokenScorer` defines no `score_token` method, the exception is caught and
`{}` is returned — hence `score_tokens_in_parallel` returns an empty score
map for every input list, and `SignalGenerator.generate_signals` fed those
scores emits no signal for any token (every total score reads as 0, below
`MINIMUM_TOTAL_SCORE`). -/
theorem C2_score_token_always_empty :
    (∀ token, ScoringService.score_token token = []) ∧
    (∀ tokens, ScoringService.score_tokens_in_parallel tokens = []) ∧
    (∀ (g : SignalGenerator) (now : ℚ) (tokens : List TokenDict),
      SignalGenerator.generate_signals g now tokens
        (ScoringService.score_tokens_in_parallel tokens) = ([], g)) := by
  have h1 : ∀ token, ScoringService.score_token token = [] := by
    intro token
    rfl
  have h2 : ∀ tokens, ScoringService.score_tokens_in_parallel tokens = [] := by
    intro tokens
    unfold ScoringService.score_tokens_in_parallel
    split
    · rfl
    · have : ∀ (ts : List TokenDict) (acc : List (String × List (String × ℚ))),
          (ts.map ScoringService.score_token).foldl
            (fun all_scores result => result.foldl (fun d p => dictSet d p.1 p.2) all_scores)
            acc = acc := by
        intro ts
        induction ts with
        | nil => intro acc; rfl
        | cons hd tl ih => intro acc; simpa [h1 hd] using ih acc
      exact this tokens []
  have h3 : ∀ (g : SignalGenerator) (now : ℚ) (tokens : List TokenDict),
      SignalGenerator.generate_signals g now tokens [] = ([], g) := by
    intro g now tokens
    induction tokens generalizing g with
    | nil => rfl
    | cons hd tl ih =>
        obtain ⟨addr⟩ := hd
        cases addr with
        | none => simpa [SignalGenerator.generate_signals] using ih g
        | some a =>
            by_cases ha : a = ""
            · simpa [SignalGenerator.generate_signals, ha] using ih g
            · have h70 : (0 : ℚ) < MINIMUM_TOTAL_SCORE := by
                norm_num [MINIMUM_TOTAL_SCORE]
              simpa [SignalGenerator.generate_signals, ha, dictGet, h70] using ih g
  refine ⟨h1, h2, fun g now tokens => ?_⟩
  rw [h2 tokens]
  exact h3 g now tokens

/-- C1 counterexample: two registered adapters each return a candidate with
the same case-normalized `(chain_id, address)` identity key, yet the merged
result of `scan_all_blockchains` contains two entries for that key — the
merge performs no deduplication. -/
theorem C1_no_dedup_counterexample :
    ((ScannerService.scan_all_blockchains
        [("ethereum", Except.ok [⟨"0xAbC123", "ethereum", "PEPE"⟩]),
         ("solana", Except.ok [⟨"0xabc123", "Ethereum", "PEPE"⟩])]).filter
      (fun t => identityKey t = ("ethereum", "0xabc123"))).length = 2 := by
  decide

/-- C1 amended: `scan_all_blockchains` concatenates the per-adapter results
(a failed adapter contributes `[]`); for every identity key, the number of
merged entries with that key is the sum of the per-adapter counts, so two
adapters that both return a candidate with the same key yield two entries,
not one. -/
theorem C1_merge_is_concatenation
    (scanners : List (String × Except String (List ScanToken))) (k : String × String) :
    ((ScannerService.scan_all_blockchains scanners).filter
        (fun t => identityKey t = k)).length =
      (scanners.map (fun p =>
        ((ScannerService.scan_blockchain p.2).filter
          (fun t => identityKey t = k)).length)).sum := by
  have hjoin : ∀ (ls : List (List ScanToken)),
      ((ls.flatten).filter (fun t => identityKey t = k)).length =
        (ls.map (fun l => (l.filter (fun t => identityKey t = k)).length)).sum := by
    intro ls
    induction ls with
    | nil => rfl
    | cons hd tl ih =>
        simp only [List.flatten_cons, List.filter_append, List.length_append,
          List.map_cons, List.sum_cons, ih]
  unfold ScannerService.scan_all_blockchains
  split
  · next h =>
      rw [List.isEmpty_iff] at h
      subst h
      rfl
  · rw [foldl_append_eq_flatten, List.nil_append, hjoin, List.map_map]
    rfl

/-- The retry loop performs at most `attempt + remaining + 1` invocations. -/
theorem retryGo_attempts_le {ε α : Type} (outcomes : Nat → Except ε α) (f : ℚ) :
    ∀ (remaining attempt : Nat) (delay : ℚ),
      (retryGo outcomes f remaining attempt delay).attempts ≤ attempt + remaining + 1 := by
  intro remaining
  induction remaining with
  | zero =>
      intro attempt delay
      unfold retryGo
      cases outcomes attempt <;> simp
  | succ r ih =>
      intro attempt delay
      unfold retryGo
      cases outcomes attempt with
      | ok v => simp
      | error e =>
          have := ih (attempt + 1) (delay * f)
          simpa using by omega

/-- When every attempt fails, the retry loop runs all remaining attempts,
ends with the error of the last one, and sleeps the geometric delays. -/
theorem retryGo_all_fail {ε α : Type} (errs : Nat → ε) (f : ℚ) :
    ∀ (remaining attempt : Nat) (delay : ℚ),
      retryGo (fun i => (Except.error (errs i) : Except ε α)) f remaining attempt delay =
        ⟨Except.error (errs (attempt + remaining)), attempt + remaining + 1,
         (List.range remaining).map (fun i => delay * f ^ i)⟩ := by
  intro remaining
  induction remaining with
  | zero =>
      intro attempt delay
      unfold retryGo
      simp
  | succ r ih =>
      intro attempt delay
      unfold retryGo
      simp only [ih (attempt + 1) (delay * f)]
      have harith : attempt + 1 + r = attempt + (r + 1) := by omega
      have hdelays : delay :: (List.range r).map (fun i => delay * f * f ^ i) =
          (List.range (r + 1)).map (fun i => delay * f ^ i) := by
        rw [List.range_succ_eq_map, List.map_cons, List.map_map]
        refine congrArg₂ _ (by ring) (List.map_congr_left ?_)
        intro i _
        show delay * f * f ^ i = delay * f ^ (i + 1)
        ring
      simp [harith, hdelays]

/-- C4 counterexample: with `max_retries = 3` and a wrapped function that
always fails, `retry_with_backoff` invokes the function 4 times (not at most
3), and the raised error is the unmodified last original error — there is no
`TransientNetworkError` wrapper in the code. -/
theorem C4_retry_claim_counterexample :
    (retry_with_backoff 3 1 2 (fun i => (Except.error i : Except Nat Unit))).attempts = 4 ∧
    (retry_with_backoff 3 1 2 (fun i => (Except.error i : Except Nat Unit))).result =
      Except.error 3 :=
  ⟨rfl, rfl⟩

/-- C4 amended: `retry_with_backoff` makes at most `max_retries + 1` attempts
(the initial call plus `max_retries` retries); the delay slept before each
retry starts at `initial_delay` and is multiplied by `backoff_factor` after
each failed attempt; and when every attempt fails, the loop makes exactly
`max_retries + 1` attempts and re-raises the last original error unchanged
(no `TransientNetworkError` exists in the code). -/
theorem C4_retry_bounds_and_exhaustion {ε α : Type} (max_retries : Nat)
    (initial_delay backoff_factor : ℚ) (errs : Nat → ε) :
    (∀ outcomes : Nat → Except ε α,
      (retry_with_backoff max_retries initial_delay backoff_factor outcomes).attempts
        ≤ max_retries + 1) ∧
    retry_with_backoff max_retries initial_delay backoff_factor
        (fun i => (Except.error (errs i) : Except ε α)) =
      ⟨Except.error (errs max_retries), max_retries + 1,
       (List.range max_retries).map (fun i => initial_delay * backoff_factor ^ i)⟩ := by
  constructor
  · intro outcomes
    simpa [retry_with_backoff] using retryGo_attempts_le outcomes backoff_factor max_retries 0
      initial_delay
  · simpa [retry_with_backoff] using retryGo_all_fail errs backoff_factor max_retries 0
      initial_delay

/-- C5: on a breaker with `failure_threshold = 3`, three consecutive failures
transition the state from closed to open; while open, a call attempted before
`reset_timeout` has elapsed since the last failure is rejected with the
open-circuit error without invoking the wrapped function (third component
`false`); once more than `reset_timeout` has elapsed, the single trial call is
let through in the half-open state and its success transitions the breaker
back to closed (resetting `failure_count`). -/
theorem C5_breaker_open_halfopen_closed {ε α : Type} (name : String)
    (r t1 t2 t3 t4 t5 : ℚ) (e1 e2 e3 : ε) (f : Except ε α) (v : α)
    (hwait : t4 - t3 ≤ r) (helapsed : t5 - t3 > r) :
    (failStep (CircuitBreaker.init name 3 r) t1 e1).state = "closed" ∧
    (failStep (failStep (CircuitBreaker.init name 3 r) t1 e1) t2 e2).state = "closed" ∧
    (failStep (failStep (failStep (CircuitBreaker.init name 3 r) t1 e1) t2 e2) t3
      e3).state = "open" ∧
    CircuitBreaker.execute
        (failStep (failStep (failStep (CircuitBreaker.init name 3 r) t1 e1) t2 e2) t3 e3)
        t4 f =
      (ExecResult.circuitOpen,
       failStep (failStep (failStep (CircuitBreaker.init name 3 r) t1 e1) t2 e2) t3 e3,
       false) ∧
    CircuitBreaker.execute
        (failStep (failStep (failStep (CircuitBreaker.init name 3 r) t1 e1) t2 e2) t3 e3)
        t5 (Except.ok v : Except ε α) =
      (ExecResult.ok v,
       { failStep (failStep (failStep (CircuitBreaker.init name 3 r) t1 e1) t2 e2) t3 e3
           with state := "closed", failure_count := 0 },
       true) := by
  have hcb3 :
      failStep (failStep (failStep (CircuitBreaker.init name 3 r) t1 e1) t2 e2) t3 e3 =
        ⟨name, 3, 3, r, "open", t3⟩ := rfl
  refine ⟨rfl, rfl, by rw [hcb3], ?_, ?_⟩
  · rw [hcb3]
    have h4 : ¬ (t4 - t3 > r) := not_lt.mpr hwait
    simp [CircuitBreaker.execute, h4]
  · rw [hcb3]
    simp [CircuitBreaker.execute, CircuitBreaker.run, helapsed]

/-- Witness for C5 at a concrete breaker and timeline. -/
theorem C5_breaker_open_halfopen_closed_witness :
    ((30 : ℚ) - 2 ≤ 60) ∧ ((100 : ℚ) - 2 > 60) ∧
    (failStep (failStep (failStep (CircuitBreaker.init "svc" 3 60) 0 (0 : Nat)) 1 0) 2
      0).state = "open" :=
  ⟨by norm_num, by norm_num,
   (C5_breaker_open_halfopen_closed "svc" 60 0 1 2 30 100 0 0 0
     (Except.error 0 : Except Nat Unit) () (by norm_num) (by norm_num)).2.2.1⟩

/-- In the closed state a successful call leaves the breaker untouched. -/
theorem execute_closed_ok {ε α : Type} (cb : CircuitBreaker) (now : ℚ) (v : α)
    (h : cb.state = "closed") :
    CircuitBreaker.execute cb now (Except.ok v : Except ε α) = (ExecResult.ok v, cb, true) := by
  have h1 : ¬ cb.state = "open" := by rw [h]; decide
  have h2 : ¬ cb.state = "half-open" := by rw [h]; decide
  simp [CircuitBreaker.execute, CircuitBreaker.run, h1, h2]

/-- In the closed state a failing call increments `failure_count`, stamps
`last_failure_time`, and opens the circuit exactly when the threshold is met. -/
theorem execute_closed_error {ε α : Type} (cb : CircuitBreaker) (now : ℚ) (e : ε)
    (h : cb.state = "closed") :
    CircuitBreaker.execute cb now (Except.error e : Except ε α) =
      (ExecResult.err e,
       if cb.failure_count + 1 ≥ cb.failure_threshold then
         { cb with failure_count := cb.failure_count + 1, last_failure_time := now,
                   state := "open" }
       else
         { cb with failure_count := cb.failure_count + 1, last_failure_time := now },
       true) := by
  have h1 : ¬ cb.state = "open" := by rw [h]; decide
  simp only [CircuitBreaker.execute, if_neg h1, CircuitBreaker.run]
  split
  · rfl
  · rfl

/-- In the open state, a call inside the reset window is rejected unchanged. -/
theorem execute_open_wait {ε α : Type} (cb : CircuitBreaker) (now : ℚ) (f : Except ε α)
    (h : cb.state = "open") (hw : now - cb.last_failure_time ≤ cb.reset_timeout) :
    CircuitBreaker.execute cb now f = (ExecResult.circuitOpen, cb, false) := by
  have h1 : ¬ (now - cb.last_failure_time > cb.reset_timeout) := not_lt.mpr hw
  simp [CircuitBreaker.execute, h, h1]

/-- Invariant run: from a closed breaker that still has enough failures ahead,
or from an open breaker still inside its reset window, a burst of calls at one
timestamp ends with the breaker open. -/
theorem steps_open_of_failures {ε α : Type} (now : ℚ) :
    ∀ (l : List (Except ε α)) (cb : CircuitBreaker),
      0 ≤ cb.reset_timeout →
      ((cb.state = "closed" ∧ cb.failure_count < cb.failure_threshold ∧
          cb.failure_threshold ≤ cb.failure_count + countFailures l) ∨
        (cb.state = "open" ∧ now - cb.last_failure_time ≤ cb.reset_timeout)) →
      (CircuitBreaker.steps cb now l).state = "open" := by
  intro l
  induction l with
  | nil =>
      intro cb _ h
      rcases h with ⟨_, hlt, hge⟩ | ⟨hopen, _⟩
      · simp only [countFailures] at hge
        omega
      · simpa [CircuitBreaker.steps] using hopen
  | cons x xs ih =>
      intro cb hr h
      rw [CircuitBreaker.steps]
      rcases h with ⟨hclosed, hlt, hge⟩ | ⟨hopen, hwait⟩
      · cases x with
        | ok v =>
            rw [execute_closed_ok cb now v hclosed]
            simp only [countFailures] at hge
            exact ih cb hr (Or.inl ⟨hclosed, hlt, hge⟩)
        | error e =>
            rw [execute_closed_error cb now e hclosed]
            simp only [countFailures] at hge
            by_cases hth : cb.failure_count + 1 ≥ cb.failure_threshold
            · simp only [if_pos hth]
              refine ih _ (by simpa using hr) (Or.inr ⟨rfl, ?_⟩)
              simpa using hr
            · simp only [if_neg hth]
              exact ih _ (by simpa using hr)
                (Or.inl ⟨by simpa using hclosed, by simpa using hth, by simp; omega⟩)
      · rw [execute_open_wait cb now x hopen hwait]
        exact ih cb hr (Or.inr ⟨hopen, hwait⟩)

/-- C9: while the breaker is closed, a successful `execute` leaves
`failure_count` (indeed the whole breaker state) unchanged — the reset to 0
happens only on the half-open-to-closed transition — so `failure_threshold`
cumulative failures, even interleaved with successes, suffice to move a fresh
breaker from closed to open. -/
theorem C9_closed_success_keeps_count :
    (∀ (ε α : Type) (cb : CircuitBreaker) (now : ℚ) (v : α), cb.state = "closed" →
      CircuitBreaker.execute cb now (Except.ok v : Except ε α) =
        (ExecResult.ok v, cb, true)) ∧
    (∀ (ε α : Type) (name : String) (T : Nat) (r now : ℚ) (l : List (Except ε α)),
      0 < T → 0 ≤ r → T ≤ countFailures l →
      (CircuitBreaker.steps (CircuitBreaker.init name T r) now l).state = "open") := by
  constructor
  · intro ε α cb now v h
    exact execute_closed_ok cb now v h
  · intro ε α name T r now l hT hr hcf
    refine steps_open_of_failures now l (CircuitBreaker.init name T r) hr
      (Or.inl ⟨rfl, ?_, ?_⟩)
    · simpa [CircuitBreaker.init] using hT
    · simpa [CircuitBreaker.init] using hcf

/-- Witness for C9: a success between two failures does not reset the count,
and two non-consecutive failures open a threshold-2 breaker. -/
theorem C9_closed_success_keeps_count_witness :
    CircuitBreaker.execute ⟨"db", 1, 5, 60, "closed", 0⟩ 10 (Except.ok () : Except Unit Unit) =
      (ExecResult.ok (), ⟨"db", 1, 5, 60, "closed", 0⟩, true) ∧
    (CircuitBreaker.steps (CircuitBreaker.init "db" 2 60) 10
      ([Except.error (), Except.ok (), Except.error ()] : List (Except Unit Unit))).state =
      "open" :=
  ⟨C9_closed_success_keeps_count.1 Unit Unit ⟨"db", 1, 5, 60, "closed", 0⟩ 10 () rfl,
   C9_closed_success_keeps_count.2 Unit Unit "db" 2 60 10
     [Except.error (), Except.ok (), Except.error ()] (by decide) (by norm_num) (by decide)⟩

/-- Recording a signal leaves the key's fresh timestamp in `recent_signals`
(the opportunistic cleanup never removes an entry recorded just now). -/
theorem record_signal_lookup (g : SignalGenerator) (now0 : ℚ) (K : String) :
    dictGet (g.record_signal now0 K).recent_signals K = some now0 := by
  have h0 : (0 : ℚ) < cooldown_period := by
    norm_num [cooldown_period, SIGNAL_COOLDOWN_MINUTES]
  simp [SignalGenerator.record_signal, SignalGenerator.cleanup_old_signals, dictSet,
    List.filter_cons, h0, dictGet]

/-- C6: after a signal is recorded for key `K` at `now0`, `can_generate_signal`
for `K` answers false at every time strictly before `now0 + cooldown_period`
and true once strictly past it (provided the hourly cap is not yet reached);
once `signal_count_last_hour` has reached `MAX_SIGNALS_PER_HOUR` with the last
signal inside the rolling hour, `can_generate_signal` answers false for every
key — including keys never signalled — and once the hour window has rolled
over the counter resets to 0 and a fresh key passes again. -/
theorem C6_throttle_cooldown_and_cap (g : SignalGenerator) (now0 : ℚ) (K K2 : String) :
    (∀ t, t - now0 < cooldown_period →
      ((g.record_signal now0 K).can_generate_signal t K).1 = false) ∧
    (∀ t, cooldown_period < t - now0 →
      g.signal_count_last_hour + 1 < MAX_SIGNALS_PER_HOUR →
      ((g.record_signal now0 K).can_generate_signal t K).1 = true) ∧
    (∀ (g2 : SignalGenerator) (now : ℚ), g2.last_signal_time > now - 3600 →
      g2.signal_count_last_hour ≥ MAX_SIGNALS_PER_HOUR →
      (g2.can_generate_signal now K2).1 = false) ∧
    (∀ (g2 : SignalGenerator) (now : ℚ), ¬ (g2.last_signal_time > now - 3600) →
      dictGet g2.recent_signals K2 = none →
      (g2.can_generate_signal now K2).1 = true ∧
      (g2.can_generate_signal now K2).2.signal_count_last_hour = 0) := by
  refine ⟨fun t ht => ?_, fun t ht hcap => ?_, fun g2 now hwin hcap => ?_,
    fun g2 now hwin hfresh => ?_⟩
  · simp [SignalGenerator.can_generate_signal, record_signal_lookup g now0 K, ht]
  · have hnc : ¬ (t - now0 < cooldown_period) := by linarith
    have hlast : (g.record_signal now0 K).last_signal_time = now0 := rfl
    have hcount : (g.record_signal now0 K).signal_count_last_hour =
        g.signal_count_last_hour + 1 := rfl
    simp only [SignalGenerator.can_generate_signal, record_signal_lookup g now0 K,
      hlast, hcount]
    by_cases hw : now0 > t - 3600
    · simp [hnc, hw, Nat.not_le.mpr hcap]
    · simp [hnc, hw]
  · simp only [SignalGenerator.can_generate_signal]
    cases hk : dictGet g2.recent_signals K2 with
    | none => simp [hwin, hcap]
    | some last =>
        by_cases hc : now - last < cooldown_period
        · simp [hc]
        · simp [hc, hwin, hcap]
  · simp [SignalGenerator.can_generate_signal, hfresh, hwin]

/-- Witness for C6: a key re-checked 100 s after its signal is throttled, and
with the hourly cap reached a never-signalled key is throttled too. -/
theorem C6_throttle_cooldown_and_cap_witness :
    ((10100 : ℚ) - 10000 < cooldown_period) ∧
    ((SignalGenerator.init.record_signal 10000 "tokA").can_generate_signal 10100
      "tokA").1 = false ∧
    ((⟨[], 5, 1000⟩ : SignalGenerator).can_generate_signal 2000 "tokB").1 = false :=
  ⟨by norm_num [cooldown_period, SIGNAL_COOLDOWN_MINUTES],
   (C6_throttle_cooldown_and_cap SignalGenerator.init 10000 "tokA" "tokB").1 10100
     (by norm_num [cooldown_period, SIGNAL_COOLDOWN_MINUTES]),
   (C6_throttle_cooldown_and_cap SignalGenerator.init 10000 "tokA" "tokB").2.2.1
     ⟨[], 5, 1000⟩ 2000 (by norm_num) (by norm_num [MAX_SIGNALS_PER_HOUR])⟩

/-- Witness for C7 at a concrete store, key and TTL. -/
theorem C7_cache_ttl_witness :
    (Cache.get (Cache.set ([] : MemoryCache Nat) 100 "price" 42 60).2 130 "price").1
      = some 42 :=
  (C7_cache_ttl ([] : MemoryCache Nat) 100 "price" 42 60 (by norm_num)).1 130 (by norm_num)

/-- The liquidity component lies in [0, 25]. -/
theorem liquidity_score_in_range (t : ScorerInput) (h : 0 ≤ t.liquidity_usd) :
    0 ≤ TokenScorer.liquidity_score t ∧ TokenScorer.liquidity_score t ≤ 25 := by
  unfold TokenScorer.liquidity_score MIN_LIQUIDITY_USD
  split
  · next hge =>
      dsimp only
      have h1 : (0 : ℚ) ≤ (t.liquidity_usd - 10000) / (9 * 10000) :=
        div_nonneg (by linarith) (by norm_num)
      have h2 : min 1 ((t.liquidity_usd - 10000) / (9 * 10000)) ≤ 1 := min_le_left _ _
      have h3 : (0 : ℚ) ≤ min 1 ((t.liquidity_usd - 10000) / (9 * 10000)) :=
        le_min (by norm_num) h1
      constructor <;> linarith
  · next hlt =>
      dsimp only
      push_neg at hlt
      have h1 : (0 : ℚ) ≤ t.liquidity_usd / 10000 := div_nonneg h (by norm_num)
      have h2 : t.liquidity_usd / 10000 ≤ 1 := by
        rw [div_le_one (by norm_num : (0 : ℚ) < 10000)]
        linarith
      constructor <;> linarith

/-- The volume component lies in [0, 25]. -/
theorem volume_score_in_range (t : ScorerInput) (h : 0 ≤ t.volume_24h_usd) :
    0 ≤ TokenScorer.volume_score t ∧ TokenScorer.volume_score t ≤ 25 := by
  unfold TokenScorer.volume_score MIN_VOLUME_24H
  split
  · next hge =>
      dsimp only
      have h1 : (0 : ℚ) ≤ (t.volume_24h_usd - 5000) / (9 * 5000) :=
        div_nonneg (by linarith) (by norm_num)
      have h2 : min 1 ((t.volume_24h_usd - 5000) / (9 * 5000)) ≤ 1 := min_le_left _ _
      have h3 : (0 : ℚ) ≤ min 1 ((t.volume_24h_usd - 5000) / (9 * 5000)) :=
        le_min (by norm_num) h1
      constructor <;> linarith
  · next hlt =>
      dsimp only
      push_neg at hlt
      have h1 : (0 : ℚ) ≤ t.volume_24h_usd / 5000 := div_nonneg h (by norm_num)
      have h2 : t.volume_24h_usd / 5000 ≤ 1 := by
        rw [div_le_one (by norm_num : (0 : ℚ) < 5000)]
        linarith
      constructor <;> linarith

/-- The social component lies in [0, 25]. -/
theorem social_score_in_range (t : ScorerInput) (hm : 0 ≤ t.recent_mentions_count)
    (hi : 0 ≤ t.influencer_mentions_count) (hs0 : -1 ≤ t.avg_sentiment)
    (hs1 : t.avg_sentiment ≤ 1) :
    0 ≤ TokenScorer.social_score t ∧ TokenScorer.social_score t ≤ 25 := by
  unfold TokenScorer.social_score
  dsimp only
  have m1a : (0 : ℚ) ≤ min 15 (t.recent_mentions_count * (3/2)) :=
    le_min (by norm_num) (mul_nonneg hm (by norm_num))
  have m1b : min 15 (t.recent_mentions_count * (3/2)) ≤ 15 := min_le_left _ _
  have m2a : (0 : ℚ) ≤ min 5 (t.influencer_mentions_count * (5/2)) :=
    le_min (by norm_num) (mul_nonneg hi (by norm_num))
  have m2b : min 5 (t.influencer_mentions_count * (5/2)) ≤ 5 := min_le_left _ _
  have m3a : (0 : ℚ) ≤ 5 * (t.avg_sentiment + 1) / 2 :=
    div_nonneg (mul_nonneg (by norm_num) (by linarith)) (by norm_num)
  have m3b : 5 * (t.avg_sentiment + 1) / 2 ≤ 5 := by linarith
  constructor <;> linarith

/-- The safety component lies in [0, 25]. -/
theorem safety_score_in_range (t : ScorerInput) (h0 : 0 ≤ t.contract_audit_score)
    (h1 : t.contract_audit_score ≤ 100) :
    0 ≤ TokenScorer.safety_score t ∧ TokenScorer.safety_score t ≤ 25 := by
  have hb : 0 ≤ TokenScorer.safety_base t ∧ TokenScorer.safety_base t ≤ 25 := by
    unfold TokenScorer.safety_base
    refine ⟨div_nonneg h0 (by norm_num), ?_⟩
    rw [div_le_iff (by norm_num : (0 : ℚ) < 4)]
    linarith
  have hh : 0 ≤ TokenScorer.safety_after_honeypot t ∧
      TokenScorer.safety_after_honeypot t ≤ 25 := by
    unfold TokenScorer.safety_after_honeypot
    split
    · exact ⟨le_refl 0, by norm_num⟩
    · exact hb
  have hv : 0 ≤ TokenScorer.safety_after_verified t ∧
      TokenScorer.safety_after_verified t ≤ 25 := by
    unfold TokenScorer.safety_after_verified
    split
    · exact ⟨le_min (by norm_num) (by linarith [hh.1]), min_le_left _ _⟩
    · exact hh
  have hr : 0 ≤ TokenScorer.safety_after_ratio t ∧
      TokenScorer.safety_after_ratio t ≤ 25 := by
    unfold TokenScorer.safety_after_ratio
    split
    · exact ⟨le_min (by norm_num) (by linarith [hv.1]), min_le_left _ _⟩
    · exact hv
  unfold TokenScorer.safety_score
  split
  · next hhold =>
      dsimp only
      have hbonus : (0 : ℚ) ≤ min 5 ((t.holders_count - MIN_HOLDERS) / 200) :=
        le_min (by norm_num) (div_nonneg (sub_nonneg.mpr hhold) (by norm_num))
      exact ⟨le_min (by norm_num) (by linarith [hr.1]), min_le_left _ _⟩
  · exact hr

/-- C8: for every candidate whose raw metrics are in their documented domains
(non-negative liquidity, volume, holder and mention counts; contract audit
score in [0,100]; average sentiment in [-1,1]), the computed score result has
`total_score` in [0,100] and every component score in [0,100]. -/
theorem C8_score_result_bounds (t : ScorerInput)
    (hliq : 0 ≤ t.liquidity_usd) (hvol : 0 ≤ t.volume_24h_usd)
    (hhold : 0 ≤ t.holders_count)
    (hmen : 0 ≤ t.recent_mentions_count) (hinf : 0 ≤ t.influencer_mentions_count)
    (haud0 : 0 ≤ t.contract_audit_score) (haud1 : t.contract_audit_score ≤ 100)
    (hs0 : -1 ≤ t.avg_sentiment) (hs1 : t.avg_sentiment ≤ 1) :
    (0 ≤ (TokenScorer.calculate_token_scores t).total_score ∧
      (TokenScorer.calculate_token_scores t).total_score ≤ 100) ∧
    (0 ≤ (TokenScorer.calculate_token_scores t).liquidity_score ∧
      (TokenScorer.calculate_token_scores t).liquidity_score ≤ 100) ∧
    (0 ≤ (TokenScorer.calculate_token_scores t).volume_score ∧
      (TokenScorer.calculate_token_scores t).volume_score ≤ 100) ∧
    (0 ≤ (TokenScorer.calculate_token_scores t).social_score ∧
      (TokenScorer.calculate_token_scores t).social_score ≤ 100) ∧
    (0 ≤ (TokenScorer.calculate_token_scores t).safety_score ∧
      (TokenScorer.calculate_token_scores t).safety_score ≤ 100) := by
  have hl := liquidity_score_in_range t hliq
  have hw := volume_score_in_range t hvol
  have hsoc := social_score_in_range t hmen hinf hs0 hs1
  have hsaf := safety_score_in_range t haud0 haud1
  refine ⟨⟨?_, ?_⟩, ⟨?_, ?_⟩, ⟨?_, ?_⟩, ⟨?_, ?_⟩, ⟨?_, ?_⟩⟩ <;>
    · dsimp only [TokenScorer.calculate_token_scores]
      linarith [hl.1, hl.2, hw.1, hw.2, hsoc.1, hsoc.2, hsaf.1, hsaf.2]

/-- Witness for C8 at the all-zero (but in-domain) candidate. -/
theorem C8_score_result_bounds_witness :
    0 ≤ (TokenScorer.calculate_token_scores
        ⟨0, 0, 0, false, false, 0, 0, 0, 0, 0⟩).total_score ∧
    (TokenScorer.calculate_token_scores
        ⟨0, 0, 0, false, false, 0, 0, 0, 0, 0⟩).total_score ≤ 100 :=
  (C8_score_result_bounds ⟨0, 0, 0, false, false, 0, 0, 0, 0, 0⟩
    (by norm_num) (by norm_num) (by norm_num) (by norm_num) (by norm_num)
    (by norm_num) (by norm_num) (by norm_num) (by norm_num)).1

end MemeBot
